import Mathlib

/-!
Verification of the airport solar analysis calculations.

The embedded code comes from the repository's client-side computation layer:
the per-building solar estimate and the merged-totals recomputation in
`HomePageClient.tsx`, the totals fold `recalcTotals` in the hidden-buildings
module, and the polygon geometry helpers (`calcGeodesicArea`, `haversineKm`,
`latlngsToGeoJSON`, `centroid`, `addBuilding`) in `useCustomBuildings.ts`.

JavaScript double arithmetic is modelled as exact arithmetic: the purely
rational computations (solar estimate, totals) are embedded over `ℚ`, and the
trigonometric geometry is embedded over an abstract linear ordered field with
the transcendental functions (`Math.cos`, `Math.sin`, `Math.sqrt`,
`Math.atan2`'s arctangent) passed as parameters, instantiated with `Real.cos`
etc. in the theorems that need their actual values.
-/

namespace AirportSolar

/-- JavaScript `Math.round`: round to the nearest integer, ties toward
positive infinity, i.e. `⌊x + 1/2⌋`. -/
def jsRound {K : Type} [LinearOrderedField K] [FloorRing K] (x : K) : ℤ :=
  ⌊x + 1 / 2⌋

/-- JavaScript `Math.round(x * 10) / 10`: round to one decimal place. -/
def round1 {K : Type} [LinearOrderedField K] [FloorRing K] (x : K) : K :=
  (jsRound (x * 10) : K) / 10

/-- The unrounded per-building solar calculation chain of
`HomePageClient.tsx` (the `customWithSolar` map body, before the rounded
display object is built). -/
structure SolarCore where
  usableArea : ℚ
  capacityKw : ℚ
  annualKwh : ℚ
  grossCost : ℚ
  itcSavings : ℚ
  installCost : ℚ
  annualRevenue : ℚ
  annualOm : ℚ
  payback : ℚ
deriving DecidableEq

/-- The `let` chain computing a custom building's solar economics in
`HomePageClient.tsx`: `usableArea = cb.area_m2 * usable`,
`capacityKw = usableArea * eff / 1000`, `annualKwh = capacityKw * 8760 * cf`,
`grossCost = capacityKw * 1000 * 1.40`, `itcSavings = grossCost * 0.30`,
`installCost = grossCost - itcSavings`, `annualRevenue = annualKwh * price`,
`annualOm = capacityKw * 15`, and the guarded payback. -/
def computeSolar (area_m2 cf usable eff price : ℚ) : SolarCore :=
  let usableArea := area_m2 * usable
  let capacityKw := usableArea * eff / 1000
  let annualKwh := capacityKw * 8760 * cf
  let grossCost := capacityKw * 1000 * (140 / 100)
  let itcSavings := grossCost * (30 / 100)
  let installCost := grossCost - itcSavings
  let annualRevenue := annualKwh * price
  let annualOm := capacityKw * 15
  let payback :=
    if 0 < annualRevenue - annualOm then installCost / (annualRevenue - annualOm) else 999
  ⟨usableArea, capacityKw, annualKwh, grossCost, itcSavings, installCost,
    annualRevenue, annualOm, payback⟩

/-- The rounded `solar` object attached to a custom building in
`HomePageClient.tsx` (fields in source order). -/
structure SolarOut where
  usable_area_m2 : ℤ
  capacity_kw : ℚ
  capacity_mw : ℚ
  annual_kwh : ℤ
  annual_mwh : ℚ
  capacity_factor : ℚ
  annual_revenue : ℤ
  gross_install_cost : ℤ
  itc_savings : ℤ
  install_cost : ℤ
  annual_om : ℤ
  payback_years : ℚ
  npv_25yr : ℚ
  co2_avoided_tons : ℚ
  co2_avoided_lifetime_tons : ℤ
  homes_powered : ℤ
  lifetime_mwh : ℤ
  cost_per_watt : ℚ
  itc_rate : ℚ
  discount_rate : ℚ
  degradation_rate : ℚ
deriving DecidableEq

/-- Builds the rounded `solar` display object from the unrounded chain,
exactly as `HomePageClient.tsx` does (with `co2Rate = 0.386` and
`npv_25yr: 0` for client-side custom buildings). -/
def solarOut (area_m2 cf usable eff price : ℚ) : SolarOut :=
  let s := computeSolar area_m2 cf usable eff price
  { usable_area_m2 := jsRound s.usableArea
    capacity_kw := round1 s.capacityKw
    capacity_mw := (jsRound (s.capacityKw / 100) : ℚ) / 10
    annual_kwh := jsRound s.annualKwh
    annual_mwh := (jsRound (s.annualKwh / 100) : ℚ) / 10
    capacity_factor := cf
    annual_revenue := jsRound s.annualRevenue
    gross_install_cost := jsRound s.grossCost
    itc_savings := jsRound s.itcSavings
    install_cost := jsRound s.installCost
    annual_om := jsRound s.annualOm
    payback_years := round1 s.payback
    npv_25yr := 0
    co2_avoided_tons := round1 (s.annualKwh * (386 / 1000) / 1000)
    co2_avoided_lifetime_tons := jsRound (s.annualKwh * 25 * (386 / 1000) / 1000)
    homes_powered := jsRound (s.annualKwh / 10500)
    lifetime_mwh := jsRound (s.annualKwh * 25 / 1000)
    cost_per_watt := 140 / 100
    itc_rate := 30 / 100
    discount_rate := 6 / 100
    degradation_rate := 5 / 1000 }

/-- The per-building `solar` sub-object fields that `recalcTotals` reads. -/
structure SolarFields where
  capacity_kw : ℚ
  annual_mwh : ℚ
  annual_revenue : ℚ
  gross_install_cost : ℚ
  itc_savings : ℚ
  install_cost : ℚ
  annual_om : ℚ
  npv_25yr : ℚ
  co2_avoided_tons : ℚ
  co2_avoided_lifetime_tons : ℚ
  homes_powered : ℚ
  lifetime_mwh : ℚ
deriving DecidableEq

/-- A building row as consumed by `recalcTotals`: an `area_m2` and an
optional `solar` sub-object (API rows have one; rows without it contribute
`0` through the JavaScript `b.solar?.f || 0` access). -/
structure BuildingRow where
  area_m2 : ℚ
  solar : Option SolarFields
deriving DecidableEq

/-- The JavaScript optional-chain read `b.solar?.f || 0`. -/
def sget (b : BuildingRow) (f : SolarFields → ℚ) : ℚ :=
  match b.solar with
  | some s => f s
  | none => 0

/-- One `buildings.reduce((s, b) => s + (b.solar?.f || 0), 0)` pass. -/
def sumBy (buildings : List BuildingRow) (f : SolarFields → ℚ) : ℚ :=
  (buildings.map (fun b => sget b f)).sum

/-- The airport-level totals record: the fields `recalcTotals` recomputes,
plus `capacity_factor` standing for the fields that the spread
`{...originalTotals, ...}` carries over unchanged. -/
structure Totals where
  capacity_factor : ℚ
  building_count : ℕ
  total_roof_area_m2 : ℤ
  capacity_kw : ℚ
  capacity_mw : ℚ
  annual_mwh : ℚ
  annual_revenue : ℤ
  gross_install_cost : ℤ
  itc_savings : ℤ
  install_cost : ℤ
  annual_om : ℤ
  payback_years : ℚ
  npv_25yr : ℤ
  co2_avoided_tons : ℚ
  co2_avoided_lifetime_tons : ℤ
  homes_powered : ℤ
  lifetime_mwh : ℤ
deriving DecidableEq

/-- `recalcTotals` from the hidden-buildings module: recomputes aggregate
totals from a filtered list of buildings.  The JavaScript guard
`if (!buildings.length || !originalTotals) return originalTotals` is modelled
by the empty-list test (the totals argument is always present here). -/
def recalcTotals (buildings : List BuildingRow) (originalTotals : Totals) : Totals :=
  if buildings.isEmpty then originalTotals else
  let totalArea := (buildings.map (fun b => b.area_m2)).sum
  let capacityKw := sumBy buildings (fun s => s.capacity_kw)
  let annualMwh := sumBy buildings (fun s => s.annual_mwh)
  let annualRevenue := sumBy buildings (fun s => s.annual_revenue)
  let grossCost := sumBy buildings (fun s => s.gross_install_cost)
  let itcSavings := sumBy buildings (fun s => s.itc_savings)
  let installCost := sumBy buildings (fun s => s.install_cost)
  let annualOm := sumBy buildings (fun s => s.annual_om)
  let npv := sumBy buildings (fun s => s.npv_25yr)
  let co2 := sumBy buildings (fun s => s.co2_avoided_tons)
  let co2Lifetime := sumBy buildings (fun s => s.co2_avoided_lifetime_tons)
  let homes := sumBy buildings (fun s => s.homes_powered)
  let lifetimeMwh := sumBy buildings (fun s => s.lifetime_mwh)
  let netAnnual := annualRevenue - annualOm
  let payback := if 0 < netAnnual then installCost / netAnnual else 999
  { originalTotals with
    building_count := buildings.length
    total_roof_area_m2 := jsRound totalArea
    capacity_kw := round1 capacityKw
    capacity_mw := (jsRound (capacityKw / 100) : ℚ) / 10
    annual_mwh := round1 annualMwh
    annual_revenue := jsRound annualRevenue
    gross_install_cost := jsRound grossCost
    itc_savings := jsRound itcSavings
    install_cost := jsRound installCost
    annual_om := jsRound annualOm
    payback_years := round1 payback
    npv_25yr := jsRound npv
    co2_avoided_tons := round1 co2
    co2_avoided_lifetime_tons := jsRound co2Lifetime
    homes_powered := jsRound homes
    lifetime_mwh := jsRound lifetimeMwh }

/-- A drawn vertex, the `{lat, lng}` objects of `useCustomBuildings.ts`. -/
structure LatLng (K : Type) where
  lat : K
  lng : K
deriving DecidableEq

instance {K : Type} [Zero K] : Inhabited (LatLng K) := ⟨⟨0, 0⟩⟩

/-- The shoelace loop of `calcGeodesicArea`: the cyclic sum
`Σ (x_i * y_{i+1} - x_{i+1} * y_i)` over consecutive vertex pairs
(`j = (i + 1) % pts.length`). -/
def shoelace {K : Type} [LinearOrderedField K] (pts : List (K × K)) : K :=
  ((pts.zip (pts.rotate 1)).map (fun pq => pq.1.1 * pq.2.2 - pq.2.1 * pq.1.2)).sum

/-- `calcGeodesicArea` from `useCustomBuildings.ts`: shoelace area on an
equirectangular projection at the mean latitude.  The cosine and the value of
pi are parameters so that the definition stays executable; theorems
instantiate them with `Real.cos` and `Real.pi`. -/
def calcGeodesicArea {K : Type} [LinearOrderedField K]
    (cos : K → K) (pi : K) (latlngs : List (LatLng K)) : K :=
  if latlngs.length < 3 then 0 else
  let meanLat := (latlngs.map (fun p => p.lat)).sum / (latlngs.length : K)
  let cosLat := cos (meanLat * pi / 180)
  let R : K := 6371000
  let p0 := latlngs.headI
  let pts := latlngs.map (fun p =>
    ((p.lng - p0.lng) * (pi / 180) * R * cosLat, (p.lat - p0.lat) * (pi / 180) * R))
  |shoelace pts / 2|

/-- JavaScript `Math.atan2` on finite inputs, parametrized by the
arctangent and pi. -/
def atan2 {K : Type} [LinearOrderedField K] (arctan : K → K) (pi : K) (y x : K) : K :=
  if 0 < x then arctan (y / x)
  else if x < 0 then
    (if 0 ≤ y then arctan (y / x) + pi else arctan (y / x) - pi)
  else
    (if 0 < y then pi / 2 else if y < 0 then -(pi / 2) else 0)

/-- The haversine parameter `a` of `haversineKm`:
`sin²(dLat/2) + cos(lat1·π/180)·cos(lat2·π/180)·sin²(dLon/2)`. -/
def havA {K : Type} [LinearOrderedField K] (sin cos : K → K) (pi : K)
    (lat1 lon1 lat2 lon2 : K) : K :=
  sin ((lat2 - lat1) * pi / 180 / 2) ^ 2 +
    cos (lat1 * pi / 180) * cos (lat2 * pi / 180) * sin ((lon2 - lon1) * pi / 180 / 2) ^ 2

/-- `haversineKm` from `useCustomBuildings.ts`:
`R * 2 * atan2(√a, √(1 - a))` with `R = 6371`. -/
def haversineKm {K : Type} [LinearOrderedField K] (sin cos sqrt arctan : K → K) (pi : K)
    (lat1 lon1 lat2 lon2 : K) : K :=
  let R : K := 6371
  let a := havA sin cos pi lat1 lon1 lat2 lon2
  R * 2 * atan2 arctan pi (sqrt a) (sqrt (1 - a))

/-- The ring-closing step of `latlngsToGeoJSON`: append the first point when
the ring is nonempty and its first and last entries differ. -/
def closeRing {K : Type} [DecidableEq K] (ring : List (K × K)) : List (K × K) :=
  match ring with
  | [] => []
  | r0 :: rest =>
    if (r0 :: rest).getLast (by simp) ≠ r0 then (r0 :: rest) ++ [r0] else r0 :: rest

/-- The single coordinate ring of the GeoJSON polygon built by
`latlngsToGeoJSON`: `[lng, lat]` pairs, closed. -/
def latlngsToRing {K : Type} [DecidableEq K] (latlngs : List (LatLng K)) : List (K × K) :=
  closeRing (latlngs.map (fun p => (p.lng, p.lat)))

/-- `centroid` from `useCustomBuildings.ts`: arithmetic mean of the points. -/
def centroid {K : Type} [LinearOrderedField K] (latlngs : List (LatLng K)) : LatLng K :=
  ⟨(latlngs.map (fun p => p.lat)).sum / (latlngs.length : K),
   (latlngs.map (fun p => p.lng)).sum / (latlngs.length : K)⟩

/-- A stored custom building (the `id` string, generated from the wall clock
and a random suffix, is nondeterministic and carries no data the claims
mention, so it is omitted). -/
structure CustomBuilding (K : Type) where
  ring : List (K × K)
  area_m2 : ℤ
  lat : K
  lon : K
  distance_km : K
  label : Option String
deriving DecidableEq

/-- `addBuilding` from `useCustomBuildings.ts`.  The React state update
`setBuildings(prev => [...prev, building])` is modelled by passing the
previous stored list and returning the new one alongside the return value. -/
def addBuilding {K : Type} [LinearOrderedField K] [FloorRing K]
    (sin cos sqrt arctan : K → K) (pi : K) (airportCenter : K × K)
    (latlngs : List (LatLng K)) (label : Option String)
    (prev : List (CustomBuilding K)) :
    Option (CustomBuilding K) × List (CustomBuilding K) :=
  if latlngs.length < 3 then (none, prev) else
  let area := calcGeodesicArea cos pi latlngs
  if area < 1 then (none, prev) else
  let center := centroid latlngs
  let dist := haversineKm sin cos sqrt arctan pi
    airportCenter.1 airportCenter.2 center.lat center.lng
  let b : CustomBuilding K :=
    { ring := latlngsToRing latlngs
      area_m2 := jsRound area
      lat := (jsRound (center.lat * 10000) : K) / 10000
      lon := (jsRound (center.lng * 10000) : K) / 10000
      distance_km := (jsRound (dist * 100) : K) / 100
      label := label }
  (some b, prev ++ [b])

/-- Claim C1: for every building area, capacity factor and parameter setting,
the solar estimate satisfies the exact formula chain in real arithmetic
before any output rounding: `usable_area = area_m2 * usable_fraction`,
`capacity_kw = usable_area * panel_efficiency / 1000`,
`annual_kwh_yr1 = capacity_kw * 8760 * capacity_factor`,
`gross_cost = capacity_kw * 1000 * 1.40`, `itc_savings = gross_cost * 0.30`,
`install_cost = gross_cost - itc_savings`,
`annual_revenue = annual_kwh_yr1 * electricity_price`, and
`annual_om = capacity_kw * 15`. -/
theorem c1_solar_formula_chain (area_m2 cf usable eff price : ℚ) :
    (computeSolar area_m2 cf usable eff price).usableArea = area_m2 * usable ∧
    (computeSolar area_m2 cf usable eff price).capacityKw =
      (computeSolar area_m2 cf usable eff price).usableArea * eff / 1000 ∧
    (computeSolar area_m2 cf usable eff price).annualKwh =
      (computeSolar area_m2 cf usable eff price).capacityKw * 8760 * cf ∧
    (computeSolar area_m2 cf usable eff price).grossCost =
      (computeSolar area_m2 cf usable eff price).capacityKw * 1000 * (140 / 100) ∧
    (computeSolar area_m2 cf usable eff price).itcSavings =
      (computeSolar area_m2 cf usable eff price).grossCost * (30 / 100) ∧
    (computeSolar area_m2 cf usable eff price).installCost =
      (computeSolar area_m2 cf usable eff price).grossCost -
        (computeSolar area_m2 cf usable eff price).itcSavings ∧
    (computeSolar area_m2 cf usable eff price).annualRevenue =
      (computeSolar area_m2 cf usable eff price).annualKwh * price ∧
    (computeSolar area_m2 cf usable eff price).annualOm =
      (computeSolar area_m2 cf usable eff price).capacityKw * 15 :=
  ⟨rfl, rfl, rfl, rfl, rfl, rfl, rfl, rfl⟩

/-- Claim C3: the payback of the per-building estimate equals
`install_cost / (annual_revenue - annual_om)` when that net annual cash flow
is positive and the sentinel `999` otherwise (never a division by a
non-positive net), and the aggregated totals' payback follows the same rule
on the summed cash flows (the stored field applies the one-decimal output
rounding, under which the sentinel is preserved: `round1 999 = 999`). -/
theorem c3_payback_rule :
    (∀ area_m2 cf usable eff price : ℚ,
      (computeSolar area_m2 cf usable eff price).payback =
        if 0 < (computeSolar area_m2 cf usable eff price).annualRevenue -
            (computeSolar area_m2 cf usable eff price).annualOm
        then (computeSolar area_m2 cf usable eff price).installCost /
            ((computeSolar area_m2 cf usable eff price).annualRevenue -
              (computeSolar area_m2 cf usable eff price).annualOm)
        else 999) ∧
    (∀ (b : BuildingRow) (bs : List BuildingRow) (t : Totals),
      (recalcTotals (b :: bs) t).payback_years =
        round1
          (if 0 < sumBy (b :: bs) (fun s => s.annual_revenue) -
              sumBy (b :: bs) (fun s => s.annual_om)
           then sumBy (b :: bs) (fun s => s.install_cost) /
              (sumBy (b :: bs) (fun s => s.annual_revenue) -
                sumBy (b :: bs) (fun s => s.annual_om))
           else 999)) ∧
    round1 (999 : ℚ) = 999 :=
  ⟨fun _ _ _ _ _ => rfl, fun _ _ _ => rfl, by norm_num [round1, jsRound]⟩

/-- Claim C2 (amended): over a nonempty building list the totals' payback is
re-derived from the summed cash flows, but the totals' `npv_25yr` is the
(rounded) sum of the per-building `npv_25yr` values, not re-derived. -/
theorem c2_payback_rederived_npv_summed (b : BuildingRow) (bs : List BuildingRow)
    (t : Totals) :
    (recalcTotals (b :: bs) t).payback_years =
      round1
        (if 0 < sumBy (b :: bs) (fun s => s.annual_revenue) -
            sumBy (b :: bs) (fun s => s.annual_om)
         then sumBy (b :: bs) (fun s => s.install_cost) /
            (sumBy (b :: bs) (fun s => s.annual_revenue) -
              sumBy (b :: bs) (fun s => s.annual_om))
         else 999) ∧
    (recalcTotals (b :: bs) t).npv_25yr =
      jsRound (sumBy (b :: bs) (fun s => s.npv_25yr)) :=
  ⟨rfl, rfl⟩

/-- Claim C2 counterexample: two one-building lists with identical summed
cash flows (install cost 700, revenue 100, O&M 10) but different per-building
`npv_25yr` values (5 versus 7) produce identical re-derived payback yet
different totals' `npv_25yr` — so the totals' NPV is the sum of the
per-building values, not a quantity re-derived from the summed cash flows. -/
theorem c2_npv_not_rederived_counterexample :
    (recalcTotals [⟨0, some ⟨0, 0, 100, 0, 0, 700, 10, 5, 0, 0, 0, 0⟩⟩]
        ⟨0, 0, 0, 0, 0, 0, 0, 0, 0, 0, 0, 0, 0, 0, 0, 0, 0⟩).install_cost =
      (recalcTotals [⟨0, some ⟨0, 0, 100, 0, 0, 700, 10, 7, 0, 0, 0, 0⟩⟩]
        ⟨0, 0, 0, 0, 0, 0, 0, 0, 0, 0, 0, 0, 0, 0, 0, 0, 0⟩).install_cost ∧
    (recalcTotals [⟨0, some ⟨0, 0, 100, 0, 0, 700, 10, 5, 0, 0, 0, 0⟩⟩]
        ⟨0, 0, 0, 0, 0, 0, 0, 0, 0, 0, 0, 0, 0, 0, 0, 0, 0⟩).annual_revenue =
      (recalcTotals [⟨0, some ⟨0, 0, 100, 0, 0, 700, 10, 7, 0, 0, 0, 0⟩⟩]
        ⟨0, 0, 0, 0, 0, 0, 0, 0, 0, 0, 0, 0, 0, 0, 0, 0, 0⟩).annual_revenue ∧
    (recalcTotals [⟨0, some ⟨0, 0, 100, 0, 0, 700, 10, 5, 0, 0, 0, 0⟩⟩]
        ⟨0, 0, 0, 0, 0, 0, 0, 0, 0, 0, 0, 0, 0, 0, 0, 0, 0⟩).annual_om =
      (recalcTotals [⟨0, some ⟨0, 0, 100, 0, 0, 700, 10, 7, 0, 0, 0, 0⟩⟩]
        ⟨0, 0, 0, 0, 0, 0, 0, 0, 0, 0, 0, 0, 0, 0, 0, 0, 0⟩).annual_om ∧
    (recalcTotals [⟨0, some ⟨0, 0, 100, 0, 0, 700, 10, 5, 0, 0, 0, 0⟩⟩]
        ⟨0, 0, 0, 0, 0, 0, 0, 0, 0, 0, 0, 0, 0, 0, 0, 0, 0⟩).payback_years =
      (recalcTotals [⟨0, some ⟨0, 0, 100, 0, 0, 700, 10, 7, 0, 0, 0, 0⟩⟩]
        ⟨0, 0, 0, 0, 0, 0, 0, 0, 0, 0, 0, 0, 0, 0, 0, 0, 0⟩).payback_years ∧
    (recalcTotals [⟨0, some ⟨0, 0, 100, 0, 0, 700, 10, 5, 0, 0, 0, 0⟩⟩]
        ⟨0, 0, 0, 0, 0, 0, 0, 0, 0, 0, 0, 0, 0, 0, 0, 0, 0⟩).npv_25yr = 5 ∧
    (recalcTotals [⟨0, some ⟨0, 0, 100, 0, 0, 700, 10, 7, 0, 0, 0, 0⟩⟩]
        ⟨0, 0, 0, 0, 0, 0, 0, 0, 0, 0, 0, 0, 0, 0, 0, 0, 0⟩).npv_25yr = 7 := by
  refine ⟨rfl, rfl, rfl, rfl, ?_, ?_⟩ <;>
    norm_num [recalcTotals, sumBy, sget, jsRound]

/-- Claim C4 counterexample: a building with `capacity_factor = 0 ≤ 0` and
positive area does not yield all-zero metrics — with area 100 m², usable
fraction 0.65 and 200 W/m² panels the unrounded and the reported capacity are
both 13 kW, and the gross install cost is 18,200 dollars. -/
theorem c4_capacity_factor_zero_not_all_zero :
    ((0 : ℚ) ≤ 0) ∧
    (computeSolar 100 0 (65 / 100) 200 (12 / 100)).capacityKw = 13 ∧
    (solarOut 100 0 (65 / 100) 200 (12 / 100)).capacity_kw = 13 ∧
    (solarOut 100 0 (65 / 100) 200 (12 / 100)).gross_install_cost = 18200 := by
  refine ⟨le_refl 0, ?_, ?_, ?_⟩ <;>
    norm_num [solarOut, computeSolar, round1, jsRound]

/-- Claim C4 (amended): for a building with `area_m2 = 0`, every metric of
the solar estimate (capacity, energy, costs, revenue, O&M, CO2, homes
powered) is zero and `payback_years = 999`, for every capacity factor and
parameter setting; the computation is total, so no exception is possible.
(The all-zero guarantee does not extend to `capacity_factor ≤ 0` with
positive area, nor to `area_m2 < 0`, where the formula chain produces
nonzero values.) -/
theorem c4_zero_area_all_zero (cf usable eff price : ℚ) :
    (solarOut 0 cf usable eff price).usable_area_m2 = 0 ∧
    (solarOut 0 cf usable eff price).capacity_kw = 0 ∧
    (solarOut 0 cf usable eff price).capacity_mw = 0 ∧
    (solarOut 0 cf usable eff price).annual_kwh = 0 ∧
    (solarOut 0 cf usable eff price).annual_mwh = 0 ∧
    (solarOut 0 cf usable eff price).annual_revenue = 0 ∧
    (solarOut 0 cf usable eff price).gross_install_cost = 0 ∧
    (solarOut 0 cf usable eff price).itc_savings = 0 ∧
    (solarOut 0 cf usable eff price).install_cost = 0 ∧
    (solarOut 0 cf usable eff price).annual_om = 0 ∧
    (solarOut 0 cf usable eff price).payback_years = 999 ∧
    (solarOut 0 cf usable eff price).npv_25yr = 0 ∧
    (solarOut 0 cf usable eff price).co2_avoided_tons = 0 ∧
    (solarOut 0 cf usable eff price).co2_avoided_lifetime_tons = 0 ∧
    (solarOut 0 cf usable eff price).homes_powered = 0 ∧
    (solarOut 0 cf usable eff price).lifetime_mwh = 0 := by
  norm_num [solarOut, computeSolar, round1, jsRound]

/-- Claim C5 (amended): on any nonempty building list `recalcTotals` is a
pure fold over exactly the list it is given — every recomputed totals field
is independent of the original totals (which only supply carried-over fields
such as `capacity_factor`), and the capacity total is the rounded sum of the
per-building capacities; on the empty list, however, the original totals are
returned unchanged. -/
theorem c5_pure_fold_on_nonempty :
    (∀ (b : BuildingRow) (bs : List BuildingRow) (t t' : Totals),
      (recalcTotals (b :: bs) t).building_count =
        (recalcTotals (b :: bs) t').building_count ∧
      (recalcTotals (b :: bs) t).total_roof_area_m2 =
        (recalcTotals (b :: bs) t').total_roof_area_m2 ∧
      (recalcTotals (b :: bs) t).capacity_kw = (recalcTotals (b :: bs) t').capacity_kw ∧
      (recalcTotals (b :: bs) t).capacity_mw = (recalcTotals (b :: bs) t').capacity_mw ∧
      (recalcTotals (b :: bs) t).annual_mwh = (recalcTotals (b :: bs) t').annual_mwh ∧
      (recalcTotals (b :: bs) t).annual_revenue =
        (recalcTotals (b :: bs) t').annual_revenue ∧
      (recalcTotals (b :: bs) t).gross_install_cost =
        (recalcTotals (b :: bs) t').gross_install_cost ∧
      (recalcTotals (b :: bs) t).itc_savings = (recalcTotals (b :: bs) t').itc_savings ∧
      (recalcTotals (b :: bs) t).install_cost = (recalcTotals (b :: bs) t').install_cost ∧
      (recalcTotals (b :: bs) t).annual_om = (recalcTotals (b :: bs) t').annual_om ∧
      (recalcTotals (b :: bs) t).payback_years =
        (recalcTotals (b :: bs) t').payback_years ∧
      (recalcTotals (b :: bs) t).npv_25yr = (recalcTotals (b :: bs) t').npv_25yr ∧
      (recalcTotals (b :: bs) t).co2_avoided_tons =
        (recalcTotals (b :: bs) t').co2_avoided_tons ∧
      (recalcTotals (b :: bs) t).co2_avoided_lifetime_tons =
        (recalcTotals (b :: bs) t').co2_avoided_lifetime_tons ∧
      (recalcTotals (b :: bs) t).homes_powered =
        (recalcTotals (b :: bs) t').homes_powered ∧
      (recalcTotals (b :: bs) t).lifetime_mwh =
        (recalcTotals (b :: bs) t').lifetime_mwh) ∧
    (∀ (b : BuildingRow) (bs : List BuildingRow) (t : Totals),
      (recalcTotals (b :: bs) t).capacity_kw =
        round1 (sumBy (b :: bs) (fun s => s.capacity_kw))) ∧
    (∀ t : Totals, recalcTotals [] t = t) :=
  ⟨fun _ _ _ _ =>
    ⟨rfl, rfl, rfl, rfl, rfl, rfl, rfl, rfl, rfl, rfl, rfl, rfl, rfl, rfl, rfl, rfl⟩,
   fun _ _ _ => rfl, fun _ => rfl⟩

/-- Claim C5 counterexample: on the empty subset of buildings (every
building hidden) the returned totals do not depend only on the subset's
per-building values — they are the original full-set totals, so two runs on
the same (empty) subset with different original totals disagree. -/
theorem c5_empty_subset_counterexample :
    (recalcTotals [] ⟨0, 0, 0, 0, 0, 0, 0, 0, 0, 0, 0, 7, 0, 0, 0, 0, 0⟩).payback_years = 7 ∧
    (recalcTotals [] ⟨0, 0, 0, 0, 0, 0, 0, 0, 0, 0, 0, 42, 0, 0, 0, 0, 0⟩).payback_years = 42 ∧
    (recalcTotals [] ⟨0, 0, 0, 0, 0, 0, 0, 0, 0, 0, 0, 7, 0, 0, 0, 0, 0⟩).payback_years ≠
      (recalcTotals [] ⟨0, 0, 0, 0, 0, 0, 0, 0, 0, 0, 0, 42, 0, 0, 0, 0, 0⟩).payback_years := by
  refine ⟨rfl, rfl, ?_⟩
  norm_num [recalcTotals]

/-- Claim C7 counterexample: with area 100 m², capacity factor 0.168, panel
efficiency 200 W/m² and price 0.12 dollars/kWh, raising the usable fraction
from 0.65 to 0.651 leaves the reported (one-decimal-rounded) `capacity_kw`
unchanged at 13.0, so the reported capacity does not strictly increase. -/
theorem c7_reported_capacity_not_strict :
    ((65 : ℚ) / 100 < 651 / 1000) ∧
    (solarOut 100 (168 / 1000) (65 / 100) 200 (12 / 100)).capacity_kw =
      (solarOut 100 (168 / 1000) (651 / 1000) 200 (12 / 100)).capacity_kw := by
  constructor
  · norm_num
  · norm_num [solarOut, computeSolar, round1, jsRound]

/-- Claim C7 (amended): for every building with positive area and fixed
positive capacity factor, panel efficiency and electricity price, a strictly
larger usable fraction strictly increases the pre-rounding capacity, annual
energy and annual revenue of the estimate (the reported values round these
to one decimal or to integers, so they need not strictly increase). -/
theorem c7_unrounded_monotonicity (area_m2 cf u1 u2 eff price : ℚ)
    (harea : 0 < area_m2) (hcf : 0 < cf) (heff : 0 < eff) (hprice : 0 < price)
    (hu : u1 < u2) :
    (computeSolar area_m2 cf u1 eff price).capacityKw <
      (computeSolar area_m2 cf u2 eff price).capacityKw ∧
    (computeSolar area_m2 cf u1 eff price).annualKwh <
      (computeSolar area_m2 cf u2 eff price).annualKwh ∧
    (computeSolar area_m2 cf u1 eff price).annualRevenue <
      (computeSolar area_m2 cf u2 eff price).annualRevenue := by
  have h1 : area_m2 * u1 < area_m2 * u2 := mul_lt_mul_of_pos_left hu harea
  have h2 : area_m2 * u1 * eff / 1000 < area_m2 * u2 * eff / 1000 := by
    have := mul_lt_mul_of_pos_right h1 heff
    gcongr
  have h3 : area_m2 * u1 * eff / 1000 * 8760 * cf <
      area_m2 * u2 * eff / 1000 * 8760 * cf := by
    have h2a : area_m2 * u1 * eff / 1000 * 8760 < area_m2 * u2 * eff / 1000 * 8760 := by
      have : (0 : ℚ) < 8760 := by norm_num
      exact mul_lt_mul_of_pos_right h2 this
    exact mul_lt_mul_of_pos_right h2a hcf
  have h4 : area_m2 * u1 * eff / 1000 * 8760 * cf * price <
      area_m2 * u2 * eff / 1000 * 8760 * cf * price :=
    mul_lt_mul_of_pos_right h3 hprice
  exact ⟨h2, h3, h4⟩

/-- Claim C7 witness: the amended monotonicity at a concrete input
(area 100 m², capacity factor 0.168, usable fraction 0.5 versus 0.65,
200 W/m², 0.12 dollars/kWh). -/
theorem c7_witness :
    (computeSolar 100 (168 / 1000) (1 / 2) 200 (12 / 100)).capacityKw <
      (computeSolar 100 (168 / 1000) (13 / 20) 200 (12 / 100)).capacityKw ∧
    (computeSolar 100 (168 / 1000) (1 / 2) 200 (12 / 100)).annualKwh <
      (computeSolar 100 (168 / 1000) (13 / 20) 200 (12 / 100)).annualKwh ∧
    (computeSolar 100 (168 / 1000) (1 / 2) 200 (12 / 100)).annualRevenue <
      (computeSolar 100 (168 / 1000) (13 / 20) 200 (12 / 100)).annualRevenue :=
  c7_unrounded_monotonicity 100 (168 / 1000) (1 / 2) (13 / 20) 200 (12 / 100)
    (by norm_num) (by norm_num) (by norm_num) (by norm_num) (by norm_num)

/-- Summation distributes over pointwise subtraction of two mapped values. -/
theorem sum_map_sub {K : Type} [LinearOrderedField K] {α : Type} (l : List α)
    (f g : α → K) :
    (l.map (fun x => f x - g x)).sum = (l.map f).sum - (l.map g).sum := by
  induction l with
  | nil => simp
  | cons a tl ih =>
    simp only [List.map_cons, List.sum_cons, ih]
    ring

/-- The cyclic shoelace sum vanishes when every vertex is one of two points:
the cross term is a coboundary on a two-point set, so the cyclic sum
telescopes to zero. -/
theorem shoelace_eq_zero_of_two_points {K : Type} [LinearOrderedField K]
    (pts : List (K × K)) (P Q : K × K) (h : ∀ r ∈ pts, r = P ∨ r = Q) :
    shoelace pts = 0 := by
  classical
  set F : K × K → K := fun r => if r = P then P.1 * Q.2 - Q.1 * P.2 else 0 with hF
  have key : ∀ pq ∈ pts.zip (pts.rotate 1),
      pq.1.1 * pq.2.2 - pq.2.1 * pq.1.2 = F pq.1 - F pq.2 := by
    rintro ⟨p, q⟩ hpq
    have hp : p ∈ pts := (List.of_mem_zip hpq).1
    have hq : q ∈ pts := List.mem_rotate.mp (List.of_mem_zip hpq).2
    have hPQ : (Q = P) ∨ (Q ≠ P) := em (Q = P)
    rcases h p hp with hpP | hpQ <;> rcases h q hq with hqP | hqQ <;>
        subst_vars <;> rcases hPQ with hqp | hqp <;>
        simp [hF, hqp] <;> try ring
  calc shoelace pts
      = ((pts.zip (pts.rotate 1)).map (fun pq => F pq.1 - F pq.2)).sum := by
        unfold shoelace
        exact congrArg List.sum (List.map_congr_left key)
    _ = ((pts.zip (pts.rotate 1)).map (fun pq => F pq.1)).sum -
        ((pts.zip (pts.rotate 1)).map (fun pq => F pq.2)).sum :=
        sum_map_sub (pts.zip (pts.rotate 1)) (fun pq => F pq.1) (fun pq => F pq.2)
    _ = (pts.map F).sum - ((pts.rotate 1).map F).sum := by
        have hlen : pts.length ≤ (pts.rotate 1).length := by simp
        have hlen2 : (pts.rotate 1).length ≤ pts.length := by simp
        rw [show (fun pq : (K × K) × (K × K) => F pq.1) = F ∘ Prod.fst from rfl,
          show (fun pq : (K × K) × (K × K) => F pq.2) = F ∘ Prod.snd from rfl,
          ← List.map_map, ← List.map_map, List.map_fst_zip _ _ hlen,
          List.map_snd_zip _ _ hlen2]
    _ = 0 := by
        rw [((pts.rotate_perm 1).map F).sum_eq]
        ring

/-- Claim C6: for every vertex list with fewer than three distinct points,
`calcGeodesicArea` returns zero — whatever the cosine and pi used by the
projection — and the function is total, so no exception can be raised. -/
theorem c6_degenerate_polygon_area_zero {K : Type} [LinearOrderedField K]
    [DecidableEq K] (cos : K → K) (pi : K) (latlngs : List (LatLng K))
    (h : latlngs.dedup.length < 3) :
    calcGeodesicArea cos pi latlngs = 0 := by
  by_cases hlen : latlngs.length < 3
  · simp [calcGeodesicArea, hlen]
  · have hne : latlngs ≠ [] := by
      intro hnil
      exact hlen (by simp [hnil])
    obtain ⟨P, Q, hPQ⟩ : ∃ P Q : LatLng K, ∀ p ∈ latlngs, p = P ∨ p = Q := by
      rcases hdl : latlngs.dedup with _ | ⟨P, _ | ⟨Q, _ | ⟨R, rest⟩⟩⟩
      · exact absurd ((List.dedup_eq_nil latlngs).mp hdl) hne
      · exact ⟨P, P, fun p hp => by
          have := List.mem_dedup.mpr hp
          rw [hdl] at this
          simp at this
          exact Or.inl this⟩
      · exact ⟨P, Q, fun p hp => by
          have := List.mem_dedup.mpr hp
          rw [hdl] at this
          simpa using this⟩
      · rw [hdl] at h
        simp at h
        omega
    unfold calcGeodesicArea
    rw [if_neg hlen]
    have hz : shoelace (latlngs.map (fun p =>
        ((p.lng - latlngs.headI.lng) * (pi / 180) * 6371000 *
            cos ((latlngs.map (fun p => p.lat)).sum / (latlngs.length : K) * pi / 180),
          (p.lat - latlngs.headI.lat) * (pi / 180) * 6371000))) = 0 := by
      apply shoelace_eq_zero_of_two_points _
        ((fun p : LatLng K =>
          ((p.lng - latlngs.headI.lng) * (pi / 180) * 6371000 *
            cos ((latlngs.map (fun p => p.lat)).sum / (latlngs.length : K) * pi / 180),
            (p.lat - latlngs.headI.lat) * (pi / 180) * 6371000)) P)
        ((fun p : LatLng K =>
          ((p.lng - latlngs.headI.lng) * (pi / 180) * 6371000 *
            cos ((latlngs.map (fun p => p.lat)).sum / (latlngs.length : K) * pi / 180),
            (p.lat - latlngs.headI.lat) * (pi / 180) * 6371000)) Q)
      intro r hr
      rcases List.mem_map.mp hr with ⟨p, hp, hmap⟩
      rcases hPQ p hp with hP | hQ
      · exact Or.inl (by rw [← hmap, hP])
      · exact Or.inr (by rw [← hmap, hQ])
    simp only [hz, zero_div, abs_zero]

/-- Claim C6 witness: a three-vertex list with only two distinct points has
computed area zero (rational instantiation, constant cosine). -/
theorem c6_witness :
    calcGeodesicArea (fun _ : ℚ => 1) 3 [⟨0, 0⟩, ⟨0, 0⟩, ⟨1, 1⟩] = 0 :=
  c6_degenerate_polygon_area_zero (fun _ : ℚ => 1) 3 [⟨0, 0⟩, ⟨0, 0⟩, ⟨1, 1⟩]
    (by
      rw [List.dedup_cons_of_mem (by norm_num [LatLng.mk.injEq]),
        List.dedup_cons_of_not_mem (by norm_num [LatLng.mk.injEq]),
        List.dedup_cons_of_not_mem (by norm_num)]
      norm_num)

/-- Evaluation of `calcGeodesicArea` on a list with at least three vertices:
the guard is skipped and the projected shoelace area is returned. -/
theorem calcGeodesicArea_cons {K : Type} [LinearOrderedField K]
    (cos : K → K) (pi : K) (a : LatLng K) (tl : List (LatLng K))
    (h : ¬(a :: tl).length < 3) :
    calcGeodesicArea cos pi (a :: tl) =
      |shoelace ((a :: tl).map (fun p =>
        ((p.lng - a.lng) * (pi / 180) * 6371000 *
            cos (((a :: tl).map (fun p => p.lat)).sum / ((a :: tl).length : K) * pi / 180),
          (p.lat - a.lat) * (pi / 180) * 6371000))) / 2| := by
  unfold calcGeodesicArea
  rw [if_neg h]
  rfl

/-- Evaluation of `calcGeodesicArea` on a degenerate vertex list: the
length guard returns zero. -/
theorem calcGeodesicArea_degenerate {K : Type} [LinearOrderedField K]
    (cos : K → K) (pi : K) (latlngs : List (LatLng K)) (h : latlngs.length < 3) :
    calcGeodesicArea cos pi latlngs = 0 := by
  simp [calcGeodesicArea, h]

/-- Claim C8 (amended): the computed polygon area is exactly invariant under
a constant longitude offset applied to every vertex, for any cosine and pi
used by the projection (latitude offsets, by contrast, change the mean
latitude whose cosine scales the projected x-coordinates). -/
theorem c8_lon_translation_invariance {K : Type} [LinearOrderedField K]
    (cos : K → K) (pi : K) (dlon : K) (latlngs : List (LatLng K)) :
    calcGeodesicArea cos pi (latlngs.map (fun p => ⟨p.lat, p.lng + dlon⟩)) =
      calcGeodesicArea cos pi latlngs := by
  rcases latlngs with _ | ⟨a, tl⟩
  · rfl
  · by_cases hlen : (a :: tl).length < 3
    · have hlen2 : ((a :: tl).map
          (fun p : LatLng K => (⟨p.lat, p.lng + dlon⟩ : LatLng K))).length < 3 := by
        simpa using hlen
      rw [calcGeodesicArea_degenerate cos pi _ hlen2,
        calcGeodesicArea_degenerate cos pi _ hlen]
    · have hlen2 : ¬((⟨a.lat, a.lng + dlon⟩ ::
          tl.map (fun p : LatLng K => (⟨p.lat, p.lng + dlon⟩ : LatLng K))).length < 3) := by
        simpa using hlen
      rw [List.map_cons, calcGeodesicArea_cons cos pi _ _ hlen2,
        calcGeodesicArea_cons cos pi a tl hlen]
      have hsum : ((⟨a.lat, a.lng + dlon⟩ ::
          tl.map (fun p : LatLng K => (⟨p.lat, p.lng + dlon⟩ : LatLng K))).map
            (fun p => p.lat)).sum = ((a :: tl).map (fun p => p.lat)).sum := by
        rw [← List.map_cons (fun p : LatLng K => (⟨p.lat, p.lng + dlon⟩ : LatLng K)) a tl,
          List.map_map]
        rfl
      have hlength : (⟨a.lat, a.lng + dlon⟩ ::
          tl.map (fun p : LatLng K => (⟨p.lat, p.lng + dlon⟩ : LatLng K))).length =
            (a :: tl).length := by
        simp
      rw [hsum, hlength]
      have hlist : (⟨a.lat, a.lng + dlon⟩ ::
          tl.map (fun p : LatLng K => (⟨p.lat, p.lng + dlon⟩ : LatLng K))).map (fun p =>
            ((p.lng - (⟨a.lat, a.lng + dlon⟩ : LatLng K).lng) * (pi / 180) * 6371000 *
                cos (((a :: tl).map (fun p => p.lat)).sum / ((a :: tl).length : K) * pi / 180),
              (p.lat - (⟨a.lat, a.lng + dlon⟩ : LatLng K).lat) * (pi / 180) * 6371000)) =
          (a :: tl).map (fun p =>
            ((p.lng - a.lng) * (pi / 180) * 6371000 *
                cos (((a :: tl).map (fun p => p.lat)).sum / ((a :: tl).length : K) * pi / 180),
              (p.lat - a.lat) * (pi / 180) * 6371000)) := by
        rw [← List.map_cons (fun p : LatLng K => (⟨p.lat, p.lng + dlon⟩ : LatLng K)) a tl,
          List.map_map]
        apply List.map_congr_left
        intro p _
        simp only [Function.comp_apply, Prod.mk.injEq]
        constructor
        · ring
        · ring
      rw [hlist]

/-- Claim C8 counterexample: translating a triangle by a constant offset of
(+60 latitude, +0 longitude) changes its mean latitude from 0 to 60 degrees,
halving the cosine used by the projection: the computed area drops to half
its value, a difference of more than a billion square meters — far outside
any small numeric tolerance. -/
theorem c8_lat_translation_counterexample :
    (([⟨-1, 0⟩, ⟨1, 0⟩, ⟨0, 3⟩] : List (LatLng ℝ)).map
        (fun p : LatLng ℝ => (⟨p.lat + 60, p.lng + 0⟩ : LatLng ℝ))) =
      ([⟨59, 0⟩, ⟨61, 0⟩, ⟨60, 3⟩] : List (LatLng ℝ)) ∧
    calcGeodesicArea Real.cos Real.pi ([⟨-1, 0⟩, ⟨1, 0⟩, ⟨0, 3⟩] : List (LatLng ℝ)) =
      2 * calcGeodesicArea Real.cos Real.pi ([⟨59, 0⟩, ⟨61, 0⟩, ⟨60, 3⟩] : List (LatLng ℝ)) ∧
    10 ^ 9 < calcGeodesicArea Real.cos Real.pi ([⟨-1, 0⟩, ⟨1, 0⟩, ⟨0, 3⟩] : List (LatLng ℝ)) -
      calcGeodesicArea Real.cos Real.pi ([⟨59, 0⟩, ⟨61, 0⟩, ⟨60, 3⟩] : List (LatLng ℝ)) := by
  have hmap : (([⟨-1, 0⟩, ⟨1, 0⟩, ⟨0, 3⟩] : List (LatLng ℝ)).map
      (fun p : LatLng ℝ => (⟨p.lat + 60, p.lng + 0⟩ : LatLng ℝ))) =
        ([⟨59, 0⟩, ⟨61, 0⟩, ⟨60, 3⟩] : List (LatLng ℝ)) := by
    simp only [List.map_cons, List.map_nil, LatLng.mk.injEq]
    norm_num
  have e1 : calcGeodesicArea Real.cos Real.pi ([⟨-1, 0⟩, ⟨1, 0⟩, ⟨0, 3⟩] : List (LatLng ℝ)) =
      3 * (Real.pi / 180 * 6371000) ^ 2 := by
    rw [calcGeodesicArea_cons Real.cos Real.pi (⟨-1, 0⟩ : LatLng ℝ)
      ([⟨1, 0⟩, ⟨0, 3⟩] : List (LatLng ℝ)) (by norm_num)]
    rw [show ((([⟨-1, 0⟩, ⟨1, 0⟩, ⟨0, 3⟩] : List (LatLng ℝ)).map (fun p => p.lat)).sum /
        ((([⟨-1, 0⟩, ⟨1, 0⟩, ⟨0, 3⟩] : List (LatLng ℝ)).length : ℝ)) * Real.pi / 180) = 0 by
      simp]
    rw [Real.cos_zero]
    simp only [shoelace, List.map_cons, List.map_nil, List.rotate, List.zip,
      List.zipWith, List.sum_cons, List.sum_nil]
    rw [abs_of_nonpos (by nlinarith [sq_nonneg (Real.pi / 180 * 6371000), Real.pi_pos])]
    ring
  have e2 : calcGeodesicArea Real.cos Real.pi ([⟨59, 0⟩, ⟨61, 0⟩, ⟨60, 3⟩] : List (LatLng ℝ)) =
      3 / 2 * (Real.pi / 180 * 6371000) ^ 2 := by
    rw [calcGeodesicArea_cons Real.cos Real.pi (⟨59, 0⟩ : LatLng ℝ)
      ([⟨61, 0⟩, ⟨60, 3⟩] : List (LatLng ℝ)) (by norm_num)]
    rw [show ((([⟨59, 0⟩, ⟨61, 0⟩, ⟨60, 3⟩] : List (LatLng ℝ)).map (fun p => p.lat)).sum /
        ((([⟨59, 0⟩, ⟨61, 0⟩, ⟨60, 3⟩] : List (LatLng ℝ)).length : ℝ)) * Real.pi / 180) =
        Real.pi / 3 by
      simp
      ring]
    rw [Real.cos_pi_div_three]
    simp only [shoelace, List.map_cons, List.map_nil, List.rotate, List.zip,
      List.zipWith, List.sum_cons, List.sum_nil]
    rw [abs_of_nonpos (by nlinarith [sq_nonneg (Real.pi / 180 * 6371000), Real.pi_pos])]
    ring
  refine ⟨hmap, ?_, ?_⟩
  · rw [e1, e2]
    ring
  · rw [e1, e2]
    have hgt : (3 : ℝ) < Real.pi := Real.pi_gt_three
    nlinarith [hgt, Real.pi_pos]

/-- The ring produced by the closing step is nonempty and its first entry
equals its last entry whenever the input ring is nonempty. -/
theorem closeRing_closed {K : Type} [DecidableEq K] (ring : List (K × K))
    (h : ring ≠ []) :
    closeRing ring ≠ [] ∧ (closeRing ring).head? = (closeRing ring).getLast? := by
  rcases ring with _ | ⟨r0, rest⟩
  · exact absurd rfl h
  · have hcons : closeRing (r0 :: rest) =
        if (r0 :: rest).getLast (by simp) ≠ r0 then (r0 :: rest) ++ [r0]
        else r0 :: rest := rfl
    rw [hcons]
    by_cases hl : (r0 :: rest).getLast (by simp) ≠ r0
    · rw [if_pos hl]
      refine ⟨by simp, ?_⟩
      rw [List.getLast?_concat]
      rfl
    · rw [if_neg hl]
      push_neg at hl
      refine ⟨by simp, ?_⟩
      rw [List.getLast?_eq_getLast (r0 :: rest) (by simp), hl]
      rfl

/-- Claim C10: `addBuilding` rejects degenerate input atomically — a drawn
vertex list with fewer than 3 points, or whose computed area is below 1 m²,
yields `null` and leaves the stored list unchanged; otherwise exactly one new
building is appended, and its stored polygon ring is nonempty and closed
(first vertex equals last). -/
theorem c10_addBuilding_guards {K : Type} [LinearOrderedField K] [FloorRing K]
    (sin cos sqrt arctan : K → K) (pi : K) (airportCenter : K × K)
    (latlngs : List (LatLng K)) (label : Option String)
    (prev : List (CustomBuilding K)) :
    (latlngs.length < 3 →
      addBuilding sin cos sqrt arctan pi airportCenter latlngs label prev = (none, prev)) ∧
    (calcGeodesicArea cos pi latlngs < 1 →
      addBuilding sin cos sqrt arctan pi airportCenter latlngs label prev = (none, prev)) ∧
    (3 ≤ latlngs.length → 1 ≤ calcGeodesicArea cos pi latlngs →
      ∃ b : CustomBuilding K,
        addBuilding sin cos sqrt arctan pi airportCenter latlngs label prev =
          (some b, prev ++ [b]) ∧
        b.ring ≠ [] ∧ b.ring.head? = b.ring.getLast?) := by
  refine ⟨?_, ?_, ?_⟩
  · intro h
    unfold addBuilding
    rw [if_pos h]
  · intro h
    by_cases hlen : latlngs.length < 3
    · unfold addBuilding
      rw [if_pos hlen]
    · unfold addBuilding
      rw [if_neg hlen, if_pos h]
  · intro hlen harea
    have hlen3 : ¬latlngs.length < 3 := not_lt.mpr hlen
    have harea2 : ¬calcGeodesicArea cos pi latlngs < 1 := not_lt.mpr harea
    have hne : latlngs ≠ [] := by
      intro hnil
      rw [hnil] at hlen
      simp at hlen
    have hring : latlngs.map (fun p => (p.lng, p.lat)) ≠ [] := by
      simpa using hne
    refine ⟨{ ring := latlngsToRing latlngs
              area_m2 := jsRound (calcGeodesicArea cos pi latlngs)
              lat := (jsRound ((centroid latlngs).lat * 10000) : K) / 10000
              lon := (jsRound ((centroid latlngs).lng * 10000) : K) / 10000
              distance_km := (jsRound (haversineKm sin cos sqrt arctan pi
                airportCenter.1 airportCenter.2 (centroid latlngs).lat
                (centroid latlngs).lng * 100) : K) / 100
              label := label }, ?_, ?_, ?_⟩
    · unfold addBuilding
      rw [if_neg hlen3, if_neg harea2]
    · exact (closeRing_closed _ hring).1
    · exact (closeRing_closed _ hring).2

/-- Claim C10 witness: a concrete three-vertex polygon of large area (rational
instantiation, constant trigonometric functions) is accepted, appended to the
empty stored list, and stored with a closed ring. -/
theorem c10_witness :
    ∃ b : CustomBuilding ℚ,
      addBuilding (fun _ : ℚ => 1) (fun _ : ℚ => 1) (fun _ : ℚ => 1) (fun _ : ℚ => 1)
          180 (0, 0) [⟨0, 0⟩, ⟨0, 1⟩, ⟨1, 1⟩] none [] = (some b, [] ++ [b]) ∧
      b.ring ≠ [] ∧ b.ring.head? = b.ring.getLast? :=
  (c10_addBuilding_guards (fun _ : ℚ => 1) (fun _ : ℚ => 1) (fun _ : ℚ => 1)
      (fun _ : ℚ => 1) 180 (0, 0) [⟨0, 0⟩, ⟨0, 1⟩, ⟨1, 1⟩] none []).2.2
    (by norm_num)
    (by norm_num [calcGeodesicArea, shoelace, List.rotate])

/-- The JavaScript `atan2` is nonnegative on the closed first quadrant, at
the real arctangent. -/
theorem atan2_nonneg (y x : ℝ) (hy : 0 ≤ y) (hx : 0 ≤ x) :
    0 ≤ atan2 Real.arctan Real.pi y x := by
  unfold atan2
  rcases eq_or_lt_of_le hx with rfl | hx'
  · rw [if_neg (lt_irrefl 0), if_neg (lt_irrefl 0)]
    rcases eq_or_lt_of_le hy with rfl | hy'
    · rw [if_neg (lt_irrefl 0), if_neg (lt_irrefl 0)]
    · rw [if_pos hy']
      positivity
  · rw [if_pos hx']
    have h0 : Real.arctan 0 ≤ Real.arctan (y / x) :=
      Real.arctan_strictMono.monotone (div_nonneg hy hx'.le)
    rw [Real.arctan_zero] at h0
    exact h0

/-- The haversine parameter is symmetric in its two coordinate pairs, at the
real sine and cosine. -/
theorem havA_swap (lat1 lon1 lat2 lon2 : ℝ) :
    havA Real.sin Real.cos Real.pi lat2 lon2 lat1 lon1 =
      havA Real.sin Real.cos Real.pi lat1 lon1 lat2 lon2 := by
  unfold havA
  rw [show (lat1 - lat2) * Real.pi / 180 / 2 = -((lat2 - lat1) * Real.pi / 180 / 2) by ring,
    show (lon1 - lon2) * Real.pi / 180 / 2 = -((lon2 - lon1) * Real.pi / 180 / 2) by ring,
    Real.sin_neg, Real.sin_neg]
  ring

/-- The haversine parameter vanishes on equal coordinate pairs. -/
theorem havA_self (lat lon : ℝ) : havA Real.sin Real.cos Real.pi lat lon lat lon = 0 := by
  unfold havA
  rw [show (lat - lat) * Real.pi / 180 / 2 = 0 by ring,
    show (lon - lon) * Real.pi / 180 / 2 = 0 by ring, Real.sin_zero]
  ring

/-- When the haversine parameter is zero the distance is zero. -/
theorem haversineKm_eq_zero_of_havA_zero (lat1 lon1 lat2 lon2 : ℝ)
    (h : havA Real.sin Real.cos Real.pi lat1 lon1 lat2 lon2 = 0) :
    haversineKm Real.sin Real.cos Real.sqrt Real.arctan Real.pi lat1 lon1 lat2 lon2 = 0 := by
  unfold haversineKm
  rw [h]
  show (6371 : ℝ) * 2 * atan2 Real.arctan Real.pi (Real.sqrt 0) (Real.sqrt (1 - 0)) = 0
  rw [Real.sqrt_zero, show (1 : ℝ) - 0 = 1 by ring, Real.sqrt_one]
  unfold atan2
  rw [if_pos one_pos, zero_div, Real.arctan_zero]
  ring

/-- Claim C9 (amended): at the real trigonometric functions, `haversineKm`
is nonnegative, symmetric, zero on equal coordinate pairs, and uses Earth
radius 6371 km (the equator-to-antipode distance evaluates to `6371 * π`,
half the modelled Earth circumference).  The converse of the zero property
fails at coordinate pairs that denote the same physical point, so it is not
part of this statement. -/
theorem c9_haversine_properties :
    (∀ lat1 lon1 lat2 lon2 : ℝ,
      0 ≤ haversineKm Real.sin Real.cos Real.sqrt Real.arctan Real.pi lat1 lon1 lat2 lon2) ∧
    (∀ lat1 lon1 lat2 lon2 : ℝ,
      haversineKm Real.sin Real.cos Real.sqrt Real.arctan Real.pi lat1 lon1 lat2 lon2 =
        haversineKm Real.sin Real.cos Real.sqrt Real.arctan Real.pi lat2 lon2 lat1 lon1) ∧
    (∀ lat lon : ℝ,
      haversineKm Real.sin Real.cos Real.sqrt Real.arctan Real.pi lat lon lat lon = 0) ∧
    haversineKm Real.sin Real.cos Real.sqrt Real.arctan Real.pi 0 0 0 180 =
      6371 * Real.pi := by
  refine ⟨?_, ?_, ?_, ?_⟩
  · intro lat1 lon1 lat2 lon2
    unfold haversineKm
    exact mul_nonneg (by norm_num)
      (atan2_nonneg _ _ (Real.sqrt_nonneg _) (Real.sqrt_nonneg _))
  · intro lat1 lon1 lat2 lon2
    unfold haversineKm
    rw [havA_swap lat1 lon1 lat2 lon2]
  · intro lat lon
    exact haversineKm_eq_zero_of_havA_zero lat lon lat lon (havA_self lat lon)
  · have h1 : havA Real.sin Real.cos Real.pi 0 0 0 180 = 1 := by
      unfold havA
      rw [show ((0 : ℝ) - 0) * Real.pi / 180 / 2 = 0 by ring, Real.sin_zero,
        show ((0 : ℝ)) * Real.pi / 180 = 0 by ring, Real.cos_zero,
        show ((180 : ℝ) - 0) * Real.pi / 180 / 2 = Real.pi / 2 by ring,
        Real.sin_pi_div_two]
      ring
    unfold haversineKm
    rw [h1]
    show (6371 : ℝ) * 2 * atan2 Real.arctan Real.pi (Real.sqrt 1) (Real.sqrt (1 - 1)) =
      6371 * Real.pi
    rw [Real.sqrt_one, show (1 : ℝ) - 1 = 0 by ring, Real.sqrt_zero]
    unfold atan2
    rw [if_neg (lt_irrefl 0), if_neg (lt_irrefl 0), if_pos one_pos]
    ring

/-- Claim C9 counterexample: the two distinct coordinate tuples (90, 0) and
(90, 50) — both at the north pole, where the latitude cosine vanishes — have
haversine distance exactly zero, so `haversineKm a b = 0` does not imply
`a = b` as tuples. -/
theorem c9_zero_at_distinct_tuples :
    haversineKm Real.sin Real.cos Real.sqrt Real.arctan Real.pi 90 0 90 50 = 0 ∧
    ((90 : ℝ), (0 : ℝ)) ≠ ((90 : ℝ), (50 : ℝ)) := by
  constructor
  · apply haversineKm_eq_zero_of_havA_zero
    unfold havA
    rw [show ((90 : ℝ) - 90) * Real.pi / 180 / 2 = 0 by ring, Real.sin_zero,
      show ((90 : ℝ)) * Real.pi / 180 = Real.pi / 2 by ring, Real.cos_pi_div_two]
    ring
  · intro hcontra
    have : (0 : ℝ) = 50 := congrArg Prod.snd hcontra
    norm_num at this

end AirportSolar
